import Mathlib

/-!
Shallow embedding of the ignition-detection / diagnostic-polling core of the
vi-firmware repository (src/obd2.cpp) and of the protobuf payload serializer
(src/payload/protobuf.cpp).

The diagnostic request scheduler, the CAN bus abstraction, the frequency
clock utility and the configuration store are external collaborators of this
core (spec §1, §6); they are modelled from the spec where the claims need
them, with doc comments marking each such definition.
-/

namespace ViFw

/-- Power management configuration, per the spec: mode is OTHER or
IGNITION_CHECK (`PowerManagement::OBD2_IGNITION_CHECK` in the source). -/
inductive PowerManagement where
  | OTHER
  | OBD2_IGNITION_CHECK
  deriving DecidableEq, Repr

/-- Modelled from the spec: configuration consumed by the core —
`power_management_mode` and `recurring_obd2_requests` (spec §6); in the
source these are `getConfiguration()->powerManagement` and
`getConfiguration()->recurringObd2Requests` from the external config store. -/
structure Configuration where
  powerManagement : PowerManagement
  recurringObd2Requests : Bool
  deriving DecidableEq, Repr

/-- A diagnostic request shape: `{arbitration_id, mode, has_pid, pid}`
(struct DiagnosticRequest as used in obd2.cpp). -/
structure DiagnosticRequest where
  arbitration_id : Nat
  mode : Nat
  has_pid : Bool
  pid : Nat
  deriving DecidableEq, Repr

/-- The closed set of response callbacks registered by obd2.cpp. -/
inductive ResponseCallback where
  | checkIgnitionStatus
  | checkSupportedPids
  deriving DecidableEq, Repr

/-- The closed set of response decoders registered by obd2.cpp
(`openxc::signals::handlers::handleObd2Pid`). -/
inductive ResponseDecoder where
  | handleObd2Pid
  deriving DecidableEq, Repr

/-- Modelled from the spec: one registration held by the external diagnostic
scheduler (spec §6 `add_request` / `add_recurring_request`): the bus handle it
was issued on, the request shape, its label, whether it recurs and at what
frequency, and its decoder/callback pair.  A bus handle is an abstract id;
`none` is the NULL pointer. -/
structure ActiveRequest where
  bus : Option Nat
  request : DiagnosticRequest
  name : Option String
  recurring : Bool
  frequencyHz : Nat
  decoder : Option ResponseDecoder
  callback : Option ResponseCallback
  deriving DecidableEq, Repr

/-- Modelled from the spec: the external diagnostic scheduler's visible state
(spec §6): `manager.initialized`, `manager.obd2_bus`, and the registered
requests. -/
structure DiagnosticsManager where
  initialized : Bool
  obd2Bus : Option Nat
  requests : List ActiveRequest
  deriving DecidableEq, Repr

/-- Modelled from the spec: `add_request` registers a one-shot request with a
response callback (spec §6).  Registration order is kept by appending. -/
def addRequest (m : DiagnosticsManager) (bus : Option Nat) (r : DiagnosticRequest)
    (name : Option String) (decoder : Option ResponseDecoder)
    (callback : Option ResponseCallback) : DiagnosticsManager :=
  { m with requests := m.requests ++
      [{ bus := bus, request := r, name := name, recurring := false,
         frequencyHz := 0, decoder := decoder, callback := callback }] }

/-- Modelled from the spec: `add_recurring_request` registers a recurring
request with a frequency, a normal handler and an auxiliary handler
(spec §6). -/
def addRecurringRequest (m : DiagnosticsManager) (bus : Option Nat)
    (r : DiagnosticRequest) (name : Option String) (decoder : Option ResponseDecoder)
    (callback : Option ResponseCallback) (frequencyHz : Nat) : DiagnosticsManager :=
  { m with requests := m.requests ++
      [{ bus := bus, request := r, name := name, recurring := true,
         frequencyHz := frequencyHz, decoder := decoder, callback := callback }] }

/-- Modelled from the spec: the scheduler's `reset` cancels all outstanding
requests and clears initialization state (spec §6). -/
def reset (m : DiagnosticsManager) : DiagnosticsManager :=
  { m with requests := [], initialized := false }

/-- Modelled from the spec: the ActivityTimer (spec §3) — the
`FrequencyClock IGNITION_STATUS_TIMER = {0.2}` of the source, i.e. a periodic
clock with a fixed 5-second period whose state is the instant of the last
`tick`.  Time is a natural number of seconds. -/
structure FrequencyClock where
  lastTick : Nat
  deriving DecidableEq, Repr

/-- The timer period: 5 seconds (frequency 0.2 Hz in the source). -/
def timerPeriod : Nat := 5

/-- Modelled from the spec: `tick` resets the last-activity instant to now
(spec §3). -/
def tick (now : Nat) (_c : FrequencyClock) : FrequencyClock :=
  { lastTick := now }

/-- Modelled from the spec: `elapsed` is true iff the period has passed since
the last tick, without consuming or resetting it (spec §3; the source calls
`time::elapsed(&IGNITION_STATUS_TIMER, false)`). -/
def elapsed (now : Nat) (c : FrequencyClock) : Bool :=
  decide (c.lastTick + timerPeriod ≤ now)

def ENGINE_SPEED_PID : Nat := 0xc
def VEHICLE_SPEED_PID : Nat := 0xd

/-- The OBD-II functional broadcast arbitration id (0x7df). -/
def OBD2_FUNCTIONAL_BROADCAST_ID : Nat := 0x7df

/-- One entry of the PID registry (`Obd2Pid` in the source). -/
structure Obd2Pid where
  pid : Nat
  name : String
  frequency : Nat
  deriving DecidableEq, Repr

/-- The static table `OBD2_PIDS` of obd2.cpp, verbatim. -/
def OBD2_PIDS : List Obd2Pid :=
  [ { pid := ENGINE_SPEED_PID, name := "engine_speed", frequency := 5 },
    { pid := VEHICLE_SPEED_PID, name := "vehicle_speed", frequency := 5 },
    { pid := 0x4, name := "engine_load", frequency := 5 },
    { pid := 0x33, name := "barometric_pressure", frequency := 1 },
    { pid := 0x4c, name := "commanded_throttle_position", frequency := 1 },
    { pid := 0x5, name := "engine_coolant_temperature", frequency := 1 },
    { pid := 0x27, name := "fuel_level", frequency := 1 },
    { pid := 0xf, name := "intake_air_temperature", frequency := 1 },
    { pid := 0xb, name := "intake_manifold_pressure", frequency := 1 },
    { pid := 0x1f, name := "running_time", frequency := 1 },
    { pid := 0x11, name := "throttle_position", frequency := 5 },
    { pid := 0xa, name := "fuel_pressure", frequency := 1 },
    { pid := 0x66, name := "mass_airflow", frequency := 5 },
    { pid := 0x5a, name := "accelerator_pedal_position", frequency := 5 },
    { pid := 0x52, name := "ethanol_fuel_percentage", frequency := 1 },
    { pid := 0x5c, name := "engine_oil_temperature", frequency := 1 },
    { pid := 0x63, name := "engine_torque", frequency := 1 } ]

/-- The mutable state owned by the core: the two ignition flags
(`ENGINE_STARTED`, `VEHICLE_IN_MOTION`), the activity timer
(`IGNITION_STATUS_TIMER`), and the static locals of `loop`
(`ignitionWasOn`, `pidSupportQueried`, `sentFinalIgnitionCheck`). -/
structure Obd2State where
  engineStarted : Bool
  vehicleInMotion : Bool
  ignitionStatusTimer : FrequencyClock
  ignitionWasOn : Bool
  pidSupportQueried : Bool
  sentFinalIgnitionCheck : Bool
  deriving DecidableEq, Repr

/-- `checkIgnitionStatus` of obd2.cpp: given the decoded value of a response
(the result of the external `diagnostic_decode_obd2_pid`, modelled as a
rational), update the watched flag for the engine-speed / vehicle-speed PIDs
and tick the activity timer on a non-zero match. -/
def checkIgnitionStatus (now : Nat) (pid : Nat) (value : ℚ) (s : Obd2State) :
    Obd2State :=
  if pid = ENGINE_SPEED_PID then
    let nz := decide (value ≠ 0)
    let s' := { s with engineStarted := nz }
    if nz then { s' with ignitionStatusTimer := tick now s'.ignitionStatusTimer }
    else s'
  else if pid = VEHICLE_SPEED_PID then
    let nz := decide (value ≠ 0)
    let s' := { s with vehicleInMotion := nz }
    if nz then { s' with ignitionStatusTimer := tick now s'.ignitionStatusTimer }
    else s'
  else s

/-- The guard of `requestIgnitionStatus` in obd2.cpp: an OBD-II bus is
configured and (power management is ignition-check or recurring OBD-II
requests are enabled). -/
def probeGuard (cfg : Configuration) (m : DiagnosticsManager) : Bool :=
  decide (m.obd2Bus ≠ none ∧
    (cfg.powerManagement = PowerManagement.OBD2_IGNITION_CHECK ∨
      cfg.recurringObd2Requests = true))

/-- `requestIgnitionStatus` of obd2.cpp: when the guard holds, add two
one-shot requests (engine speed, then vehicle speed; broadcast arbitration
id, mode 0x1, callback `checkIgnitionStatus`) and tick the timer. -/
def requestIgnitionStatus (cfg : Configuration) (now : Nat)
    (m : DiagnosticsManager) (s : Obd2State) : DiagnosticsManager × Obd2State :=
  if probeGuard cfg m then
    let m1 := addRequest m m.obd2Bus
      { arbitration_id := OBD2_FUNCTIONAL_BROADCAST_ID, mode := 0x1,
        has_pid := true, pid := ENGINE_SPEED_PID }
      (some "engine_speed") none (some ResponseCallback.checkIgnitionStatus)
    let m2 := addRequest m1 m1.obd2Bus
      { arbitration_id := OBD2_FUNCTIONAL_BROADCAST_ID, mode := 0x1,
        has_pid := true, pid := VEHICLE_SPEED_PID }
      (some "vehicle_speed") none (some ResponseCallback.checkIgnitionStatus)
    (m2, { s with ignitionStatusTimer := tick now s.ignitionStatusTimer })
  else (m, s)

/-- The inner registry scan of `checkSupportedPids`: look the derived pid up
in `OBD2_PIDS` (linear scan, first match) and, when found, register a
recurring request on the manager's OBD-II bus with the entry's name and
frequency, decoder `handleObd2Pid` and auxiliary callback
`checkIgnitionStatus`. -/
def registerIfKnown (pid : Nat) (m : DiagnosticsManager) : DiagnosticsManager :=
  match OBD2_PIDS.find? (fun d => d.pid == pid) with
  | some d =>
      addRecurringRequest m m.obd2Bus
        { arbitration_id := OBD2_FUNCTIONAL_BROADCAST_ID, mode := 0x1,
          has_pid := true, pid := pid }
        (some d.name) (some ResponseDecoder.handleObd2Pid)
        (some ResponseCallback.checkIgnitionStatus) d.frequency
  | none => m

/-- The inner bit loop of `checkSupportedPids`: scan bit positions
`j = fuel - 1, …, 0` of `byte` (the source runs `j` from `CHAR_BIT - 1`
down to `0`); for a set bit derive `responsePid + i * 8 + j + 1` and run the
registry scan. -/
def scanByte (responsePid i byte : Nat) : Nat → DiagnosticsManager → DiagnosticsManager
  | 0, m => m
  | j + 1, m =>
      scanByte responsePid i byte j
        (if byte >>> j &&& 0x1 = 0x1 then
            registerIfKnown (responsePid + i * 8 + j + 1) m
          else m)

/-- The outer byte loop of `checkSupportedPids`: scan each payload byte at
index `i`, each with the full 8-bit inner scan. -/
def scanPayload (responsePid : Nat) : List Nat → Nat → DiagnosticsManager → DiagnosticsManager
  | [], _, m => m
  | b :: rest, i, m => scanPayload responsePid rest (i + 1) (scanByte responsePid i b 8 m)

/-- `checkSupportedPids` of obd2.cpp: the supported-PID bitmask response
handler.  Returns the manager unchanged when no OBD-II bus is configured or
recurring OBD-II requests are disabled; otherwise scans the payload and
registers a recurring request for every derived pid found in the registry. -/
def checkSupportedPids (cfg : Configuration) (responsePid : Nat)
    (payload : List Nat) (m : DiagnosticsManager) : DiagnosticsManager :=
  if m.obd2Bus = none ∨ cfg.recurringObd2Requests = false then m
  else scanPayload responsePid payload 0 m

/-- Entry point of obd2.cpp (`openxc::diagnostics::obd2::initialize`; the
bare source name is a Lean keyword): a single ignition probe at startup. -/
def initializeObd2 (cfg : Configuration) (now : Nat) (m : DiagnosticsManager)
    (s : Obd2State) : DiagnosticsManager × Obd2State :=
  requestIgnitionStatus cfg now m s

/-- The PIDs probed by the PID-discovery branch of `loop`:
`for(int i = 0x0; i <= 0x80; i += 0x20)`. -/
def discoveryPids : List Nat := [0x0, 0x20, 0x40, 0x60, 0x80]

/-- `loop` of obd2.cpp: the polling state machine's tick.  `bus` is the
`CanBus* bus` argument; the static locals live in `Obd2State`. -/
def loop (cfg : Configuration) (now : Nat) (bus : Option Nat)
    (m : DiagnosticsManager) (s : Obd2State) : DiagnosticsManager × Obd2State :=
  if !m.initialized then (m, s)
  else if elapsed now s.ignitionStatusTimer then
    if s.sentFinalIgnitionCheck then
      let m' :=
        if m.initialized && decide (cfg.powerManagement = PowerManagement.OBD2_IGNITION_CHECK)
        then { reset m with initialized := false }
        else m
      (m', { s with ignitionWasOn := false, pidSupportQueried := false })
    else
      let p := requestIgnitionStatus cfg now m s
      (p.1, { p.2 with sentFinalIgnitionCheck := true })
  else if !s.ignitionWasOn && (s.engineStarted || s.vehicleInMotion) then
    let s' := { s with ignitionWasOn := true, sentFinalIgnitionCheck := false }
    if cfg.recurringObd2Requests && !s'.pidSupportQueried then
      let s'' := { s' with pidSupportQueried := true }
      let m' := discoveryPids.foldl (fun acc p =>
        addRequest acc bus
          { arbitration_id := OBD2_FUNCTIONAL_BROADCAST_ID, mode := 0x1,
            has_pid := true, pid := p }
          none none (some ResponseCallback.checkSupportedPids)) m
      (m', s'')
    else (m, s')
  else (m, s)

/-- An opaque vehicle message (`openxc_VehicleMessage`); its schema is owned
by the external codec library and irrelevant to the serializer's contract. -/
structure VehicleMessage where
  id : Nat
  deriving DecidableEq, Repr

/-- `serialize` of src/payload/protobuf.cpp.  A null message returns 0;
otherwise the message is encoded by the external nanopb
`pb_encode_delimited` — modelled from the spec as an abstract encoder
returning a success flag and the stream's `bytes_written` — and the
function returns `stream.bytes_written` (it logs on encode failure but does
not alter the returned count). -/
def serialize (message : Option VehicleMessage)
    (encode : VehicleMessage → Bool × Nat) : Nat :=
  match message with
  | none => 0
  | some msg => (encode msg).2

/-- Spec-side description (spec §4.3): the pids derived from one payload
byte, bit position `j` scanned from most significant (fuel = 8 starts at
`j = 7`) down to least significant, a set bit deriving
`responsePid + i*8 + j + 1`. -/
def bitPids (responsePid i byte : Nat) : Nat → List Nat
  | 0 => []
  | j + 1 =>
      (if byte >>> j &&& 0x1 = 0x1 then [responsePid + i * 8 + j + 1] else [])
        ++ bitPids responsePid i byte j

/-- Spec-side description: the pids derived from the payload bytes starting
at byte index `i`. -/
def derivedPidsFrom (responsePid : Nat) : List Nat → Nat → List Nat
  | [], _ => []
  | b :: rest, i => bitPids responsePid i b 8 ++ derivedPidsFrom responsePid rest (i + 1)

/-- Spec-side description: all pids derived from a supported-PID bitmask
response, in scan order. -/
def derivedPids (responsePid : Nat) (payload : List Nat) : List Nat :=
  derivedPidsFrom responsePid payload 0

/-- Spec-side description (spec §4.3): the recurring registration produced
for one derived pid — `none` when the pid is absent from the registry,
otherwise the registry entry's name and frequency with normal handler
`handleObd2Pid` and auxiliary handler `checkIgnitionStatus`. -/
def registrationFor (bus : Option Nat) (pid : Nat) : Option ActiveRequest :=
  (OBD2_PIDS.find? (fun d => d.pid == pid)).map fun d =>
    { bus := bus,
      request := { arbitration_id := OBD2_FUNCTIONAL_BROADCAST_ID, mode := 0x1,
                   has_pid := true, pid := pid },
      name := some d.name, recurring := true, frequencyHz := d.frequency,
      decoder := some ResponseDecoder.handleObd2Pid,
      callback := some ResponseCallback.checkIgnitionStatus }

/-- Spec-side description: the registrations a bitmask response produces, in
scan order — exactly one per derived pid present in the registry. -/
def specRegistrations (bus : Option Nat) (responsePid : Nat)
    (payload : List Nat) : List ActiveRequest :=
  (derivedPids responsePid payload).filterMap (registrationFor bus)

@[simp] theorem addRequest_initialized (m bus r name dec cb) :
    (addRequest m bus r name dec cb).initialized = m.initialized := rfl

@[simp] theorem addRequest_obd2Bus (m bus r name dec cb) :
    (addRequest m bus r name dec cb).obd2Bus = m.obd2Bus := rfl

@[simp] theorem addRecurringRequest_initialized (m bus r name dec cb f) :
    (addRecurringRequest m bus r name dec cb f).initialized = m.initialized := rfl

@[simp] theorem addRecurringRequest_obd2Bus (m bus r name dec cb f) :
    (addRecurringRequest m bus r name dec cb f).obd2Bus = m.obd2Bus := rfl

theorem registerIfKnown_obd2Bus (pid : Nat) (m : DiagnosticsManager) :
    (registerIfKnown pid m).obd2Bus = m.obd2Bus := by
  unfold registerIfKnown
  cases OBD2_PIDS.find? (fun d => d.pid == pid) <;> simp

theorem registerIfKnown_requests (pid : Nat) (m : DiagnosticsManager) :
    (registerIfKnown pid m).requests
      = m.requests ++ (registrationFor m.obd2Bus pid).toList := by
  unfold registerIfKnown registrationFor
  cases OBD2_PIDS.find? (fun d => d.pid == pid) <;>
    simp [addRecurringRequest]

theorem scanByte_obd2Bus (responsePid i byte : Nat) :
    ∀ (fuel : Nat) (m : DiagnosticsManager),
      (scanByte responsePid i byte fuel m).obd2Bus = m.obd2Bus := by
  intro fuel
  induction fuel with
  | zero => intro m; rfl
  | succ j ih =>
      intro m
      rw [scanByte, ih]
      by_cases h : byte >>> j &&& 0x1 = 0x1
      · rw [if_pos h, registerIfKnown_obd2Bus]
      · rw [if_neg h]

theorem scanByte_requests (responsePid i byte : Nat) :
    ∀ (fuel : Nat) (m : DiagnosticsManager),
      (scanByte responsePid i byte fuel m).requests
        = m.requests
          ++ (bitPids responsePid i byte fuel).filterMap (registrationFor m.obd2Bus) := by
  intro fuel
  induction fuel with
  | zero => intro m; simp [scanByte, bitPids]
  | succ j ih =>
      intro m
      rw [scanByte, ih, bitPids]
      by_cases h : byte >>> j &&& 0x1 = 0x1
      · rw [if_pos h, if_pos h, registerIfKnown_requests, registerIfKnown_obd2Bus]
        cases hreg : registrationFor m.obd2Bus (responsePid + i * 8 + j + 1) <;>
          simp [hreg]
      · rw [if_neg h, if_neg h]
        simp

theorem scanPayload_requests (responsePid : Nat) :
    ∀ (payload : List Nat) (i : Nat) (m : DiagnosticsManager),
      (scanPayload responsePid payload i m).requests
        = m.requests
          ++ (derivedPidsFrom responsePid payload i).filterMap (registrationFor m.obd2Bus) := by
  intro payload
  induction payload with
  | nil => intro i m; simp [scanPayload, derivedPidsFrom]
  | cons b rest ih =>
      intro i m
      rw [scanPayload, derivedPidsFrom, ih, scanByte_requests, scanByte_obd2Bus]
      simp [List.filterMap_append]

@[simp] theorem requestIgnitionStatus_initialized (cfg now m s) :
    (requestIgnitionStatus cfg now m s).1.initialized = m.initialized := by
  unfold requestIgnitionStatus
  by_cases h : probeGuard cfg m = true <;> simp [h]

@[simp] theorem requestIgnitionStatus_engineStarted (cfg now m s) :
    (requestIgnitionStatus cfg now m s).2.engineStarted = s.engineStarted := by
  unfold requestIgnitionStatus
  by_cases h : probeGuard cfg m = true <;> simp [h]

@[simp] theorem requestIgnitionStatus_vehicleInMotion (cfg now m s) :
    (requestIgnitionStatus cfg now m s).2.vehicleInMotion = s.vehicleInMotion := by
  unfold requestIgnitionStatus
  by_cases h : probeGuard cfg m = true <;> simp [h]

@[simp] theorem requestIgnitionStatus_ignitionWasOn (cfg now m s) :
    (requestIgnitionStatus cfg now m s).2.ignitionWasOn = s.ignitionWasOn := by
  unfold requestIgnitionStatus
  by_cases h : probeGuard cfg m = true <;> simp [h]

@[simp] theorem requestIgnitionStatus_pidSupportQueried (cfg now m s) :
    (requestIgnitionStatus cfg now m s).2.pidSupportQueried = s.pidSupportQueried := by
  unfold requestIgnitionStatus
  by_cases h : probeGuard cfg m = true <;> simp [h]

@[simp] theorem requestIgnitionStatus_sentFinal (cfg now m s) :
    (requestIgnitionStatus cfg now m s).2.sentFinalIgnitionCheck
      = s.sentFinalIgnitionCheck := by
  unfold requestIgnitionStatus
  by_cases h : probeGuard cfg m = true <;> simp [h]

/-- C2: for every invocation of the ignition response handler with a decoded
value — engine-speed PID sets `engine_started` to (value ≠ 0), vehicle-speed
PID sets `vehicle_in_motion` to (value ≠ 0), any other PID leaves the whole
state unchanged, and the activity timer is ticked if and only if the flag
just assigned was set to true (so a zero value assigns false and leaves the
timer alone). -/
theorem checkIgnitionStatus_spec (now pid : Nat) (value : ℚ) (s : Obd2State) :
    (pid = ENGINE_SPEED_PID →
      ((checkIgnitionStatus now pid value s).engineStarted = decide (value ≠ 0) ∧
       (checkIgnitionStatus now pid value s).vehicleInMotion = s.vehicleInMotion ∧
       (checkIgnitionStatus now pid value s).ignitionStatusTimer
         = (if value ≠ 0 then tick now s.ignitionStatusTimer
            else s.ignitionStatusTimer))) ∧
    (pid = VEHICLE_SPEED_PID →
      ((checkIgnitionStatus now pid value s).vehicleInMotion = decide (value ≠ 0) ∧
       (checkIgnitionStatus now pid value s).engineStarted = s.engineStarted ∧
       (checkIgnitionStatus now pid value s).ignitionStatusTimer
         = (if value ≠ 0 then tick now s.ignitionStatusTimer
            else s.ignitionStatusTimer))) ∧
    (pid ≠ ENGINE_SPEED_PID → pid ≠ VEHICLE_SPEED_PID →
      checkIgnitionStatus now pid value s = s) := by
  refine ⟨?_, ?_, ?_⟩
  · intro h
    subst h
    by_cases hv : value = 0 <;>
      simp [checkIgnitionStatus, ENGINE_SPEED_PID, VEHICLE_SPEED_PID, hv]
  · intro h
    subst h
    by_cases hv : value = 0 <;>
      simp [checkIgnitionStatus, ENGINE_SPEED_PID, VEHICLE_SPEED_PID, hv]
  · intro h1 h2
    simp [checkIgnitionStatus, h1, h2]

/-- Witness for C2: a zero vehicle-speed response clears `vehicle_in_motion`
without ticking the timer; a non-zero engine-speed response sets
`engine_started` and ticks it. -/
theorem checkIgnitionStatus_spec_witness :
    (checkIgnitionStatus 9 VEHICLE_SPEED_PID 0
        ⟨false, true, ⟨2⟩, false, false, false⟩).vehicleInMotion = false ∧
    (checkIgnitionStatus 9 VEHICLE_SPEED_PID 0
        ⟨false, true, ⟨2⟩, false, false, false⟩).ignitionStatusTimer = ⟨2⟩ ∧
    (checkIgnitionStatus 9 ENGINE_SPEED_PID 1
        ⟨false, false, ⟨2⟩, false, false, false⟩).engineStarted = true ∧
    (checkIgnitionStatus 9 ENGINE_SPEED_PID 1
        ⟨false, false, ⟨2⟩, false, false, false⟩).ignitionStatusTimer = ⟨9⟩ := by
  have h1 := (checkIgnitionStatus_spec 9 VEHICLE_SPEED_PID 0
      ⟨false, true, ⟨2⟩, false, false, false⟩).2.1 rfl
  have h2 := (checkIgnitionStatus_spec 9 ENGINE_SPEED_PID 1
      ⟨false, false, ⟨2⟩, false, false, false⟩).1 rfl
  refine ⟨?_, ?_, ?_, ?_⟩
  · rw [h1.1]; decide
  · rw [h1.2.2]; norm_num
  · rw [h2.1]; decide
  · rw [h2.2.2]; norm_num [tick]

/-- C3: under the handler's operating guard (bus configured, recurring
requests enabled), the support-response handler's registrations are exactly
one recurring request per derived pid (msb-to-lsb scan, derived code
`response.pid + i*8 + j + 1`) found in the registry, at the registry entry's
frequency with decoder `handleObd2Pid` and callback `checkIgnitionStatus`;
derived pids absent from the registry register nothing.  Concretely, for
base PID 0x00, bit 7 of byte 0 derives pid 8 (absent, no registration) and
bit 3 of byte 0 derives pid 4, registering "engine_load" at frequency 5. -/
theorem checkSupportedPids_spec (cfg : Configuration) (b responsePid : Nat)
    (payload : List Nat) (m : DiagnosticsManager)
    (hbus : m.obd2Bus = some b) (hrec : cfg.recurringObd2Requests = true) :
    (checkSupportedPids cfg responsePid payload m).requests
      = m.requests ++ specRegistrations m.obd2Bus responsePid payload ∧
    derivedPids 0x0 [0x80] = [8] ∧
    registrationFor (some 1) 8 = none ∧
    derivedPids 0x0 [0x8] = [4] ∧
    registrationFor (some 1) 4
      = some { bus := some 1,
               request := { arbitration_id := OBD2_FUNCTIONAL_BROADCAST_ID,
                            mode := 0x1, has_pid := true, pid := 4 },
               name := some "engine_load", recurring := true, frequencyHz := 5,
               decoder := some ResponseDecoder.handleObd2Pid,
               callback := some ResponseCallback.checkIgnitionStatus } := by
  refine ⟨?_, by decide, by decide, by decide, by decide⟩
  unfold checkSupportedPids
  rw [if_neg]
  · exact scanPayload_requests responsePid payload 0 m
  · simp [hbus, hrec]

/-- Witness for C3: the payload byte 0x88 (bits 7 and 3) for base PID 0x00
registers exactly the "engine_load" recurring request at frequency 5. -/
theorem checkSupportedPids_spec_witness :
    (checkSupportedPids ⟨PowerManagement.OTHER, true⟩ 0x0 [0x88]
        ⟨true, some 1, []⟩).requests
      = specRegistrations (some 1) 0x0 [0x88] ∧
    specRegistrations (some 1) 0x0 [0x88]
      = [{ bus := some 1,
           request := { arbitration_id := OBD2_FUNCTIONAL_BROADCAST_ID,
                        mode := 0x1, has_pid := true, pid := 0x4 },
           name := some "engine_load", recurring := true, frequencyHz := 5,
           decoder := some ResponseDecoder.handleObd2Pid,
           callback := some ResponseCallback.checkIgnitionStatus }] := by
  have h := (checkSupportedPids_spec ⟨PowerManagement.OTHER, true⟩ 1 0x0 [0x88]
      ⟨true, some 1, []⟩ rfl rfl).1
  exact ⟨h, by decide⟩

/-- The one-shot ignition probe registration for one PID, as issued by
`requestIgnitionStatus`. -/
def ignitionProbe (bus : Option Nat) (pid : Nat) (name : String) : ActiveRequest :=
  { bus := bus,
    request := { arbitration_id := OBD2_FUNCTIONAL_BROADCAST_ID, mode := 0x1,
                 has_pid := true, pid := pid },
    name := some name, recurring := false, frequencyHz := 0,
    decoder := none, callback := some ResponseCallback.checkIgnitionStatus }

/-- C4: the ignition probe proceeds iff an OBD-II bus is configured and
(power management is ignition-check or recurring OBD-II polling is enabled);
when it proceeds it appends exactly the two one-shot requests (engine speed
then vehicle speed, broadcast id, mode 0x1, callback `checkIgnitionStatus`)
and resets the timer to now; when the guard fails it changes nothing; the
entry point performs exactly this probe, so after it, from an empty request
table with a bus and ignition-check mode, exactly two one-shot requests
exist and the timer's last tick is now. -/
theorem requestIgnitionStatus_spec (cfg : Configuration) (now : Nat)
    (m : DiagnosticsManager) (s : Obd2State) :
    (probeGuard cfg m = true ↔
      (m.obd2Bus ≠ none ∧
        (cfg.powerManagement = PowerManagement.OBD2_IGNITION_CHECK ∨
          cfg.recurringObd2Requests = true))) ∧
    (probeGuard cfg m = true →
      requestIgnitionStatus cfg now m s
        = ({ m with requests := m.requests
              ++ [ignitionProbe m.obd2Bus ENGINE_SPEED_PID "engine_speed",
                  ignitionProbe m.obd2Bus VEHICLE_SPEED_PID "vehicle_speed"] },
           { s with ignitionStatusTimer := { lastTick := now } })) ∧
    (probeGuard cfg m = false → requestIgnitionStatus cfg now m s = (m, s)) ∧
    (initializeObd2 cfg now m s = requestIgnitionStatus cfg now m s) ∧
    (m.requests = [] → m.obd2Bus ≠ none →
      cfg.powerManagement = PowerManagement.OBD2_IGNITION_CHECK →
      ((initializeObd2 cfg now m s).1.requests.length = 2 ∧
       (initializeObd2 cfg now m s).1.requests.all (fun r => !r.recurring) = true ∧
       (initializeObd2 cfg now m s).1.requests.map (fun r => r.request.pid)
         = [ENGINE_SPEED_PID, VEHICLE_SPEED_PID] ∧
       (initializeObd2 cfg now m s).2.ignitionStatusTimer.lastTick = now)) := by
  have hiff : probeGuard cfg m = true ↔
      (m.obd2Bus ≠ none ∧
        (cfg.powerManagement = PowerManagement.OBD2_IGNITION_CHECK ∨
          cfg.recurringObd2Requests = true)) := by
    simp [probeGuard]
  have hpos : probeGuard cfg m = true →
      requestIgnitionStatus cfg now m s
        = ({ m with requests := m.requests
              ++ [ignitionProbe m.obd2Bus ENGINE_SPEED_PID "engine_speed",
                  ignitionProbe m.obd2Bus VEHICLE_SPEED_PID "vehicle_speed"] },
           { s with ignitionStatusTimer := { lastTick := now } }) := by
    intro h
    unfold requestIgnitionStatus
    rw [if_pos h]
    simp [addRequest, ignitionProbe, tick]
  refine ⟨hiff, hpos, ?_, rfl, ?_⟩
  · intro h
    unfold requestIgnitionStatus
    rw [if_neg]
    simp [h]
  · intro hreq hbus hpm
    have hg : probeGuard cfg m = true := hiff.mpr ⟨hbus, Or.inl hpm⟩
    have := hpos hg
    unfold initializeObd2
    rw [this]
    simp [hreq, ignitionProbe]

/-- Witness for C4: after the entry point with a bus present and
ignition-check mode, from an empty request table, exactly the two one-shot
ignition probes exist and the timer's last tick is the current time (7). -/
theorem requestIgnitionStatus_spec_witness :
    (initializeObd2 ⟨PowerManagement.OBD2_IGNITION_CHECK, false⟩ 7
        ⟨true, some 1, []⟩ ⟨false, false, ⟨0⟩, false, false, false⟩).1.requests.length = 2 ∧
    (initializeObd2 ⟨PowerManagement.OBD2_IGNITION_CHECK, false⟩ 7
        ⟨true, some 1, []⟩ ⟨false, false, ⟨0⟩, false, false, false⟩).1.requests.all
        (fun r => !r.recurring) = true ∧
    (initializeObd2 ⟨PowerManagement.OBD2_IGNITION_CHECK, false⟩ 7
        ⟨true, some 1, []⟩ ⟨false, false, ⟨0⟩, false, false, false⟩).1.requests.map
        (fun r => r.request.pid) = [ENGINE_SPEED_PID, VEHICLE_SPEED_PID] ∧
    (initializeObd2 ⟨PowerManagement.OBD2_IGNITION_CHECK, false⟩ 7
        ⟨true, some 1, []⟩ ⟨false, false, ⟨0⟩, false, false, false⟩).2.ignitionStatusTimer.lastTick = 7 :=
  (requestIgnitionStatus_spec ⟨PowerManagement.OBD2_IGNITION_CHECK, false⟩ 7
      ⟨true, some 1, []⟩ ⟨false, false, ⟨0⟩, false, false, false⟩).2.2.2.2
    rfl (by decide) rfl

/-- C1 counterexample: with ignition-check mode but no OBD-II bus configured
(the probe guard fails), the first elapsed tick leaves the timer at its old
last-tick instant — contradicting the claim's "re-sends the ignition probe
(which resets the timer)" — and the teardown then fires on the very next
tick, at time 6 with the last reset at time 0, i.e. before two consecutive
elapsed 5-second timer periods of silence. -/
theorem loop_first_timeout_counterexample :
    ((loop ⟨PowerManagement.OBD2_IGNITION_CHECK, false⟩ 5 none ⟨true, none, []⟩
        ⟨false, false, ⟨0⟩, false, false, false⟩).2.ignitionStatusTimer = ⟨0⟩ ∧
     (loop ⟨PowerManagement.OBD2_IGNITION_CHECK, false⟩ 5 none ⟨true, none, []⟩
        ⟨false, false, ⟨0⟩, false, false, false⟩).2.sentFinalIgnitionCheck = true) ∧
    (loop ⟨PowerManagement.OBD2_IGNITION_CHECK, false⟩ 6 none
        (loop ⟨PowerManagement.OBD2_IGNITION_CHECK, false⟩ 5 none ⟨true, none, []⟩
          ⟨false, false, ⟨0⟩, false, false, false⟩).1
        (loop ⟨PowerManagement.OBD2_IGNITION_CHECK, false⟩ 5 none ⟨true, none, []⟩
          ⟨false, false, ⟨0⟩, false, false, false⟩).2).1.initialized = false ∧
    6 < 0 + 2 * timerPeriod := by decide

/-- C1 (amended): on a tick where the timer has elapsed and
`sent_final_ignition_check` is false, the machine invokes the ignition probe
— which resets the timer when its guard passes and leaves it unchanged when
the guard fails — sets `sent_final_ignition_check` to true, and performs no
teardown; and whenever a tick marks the manager uninitialized, that tick had
the timer elapsed, `sent_final_ignition_check` already true, and
ignition-check mode: the teardown never happens on a first elapsed period's
tick. -/
theorem loop_two_stage_timeout (cfg : Configuration) (now : Nat)
    (bus : Option Nat) (m : DiagnosticsManager) (s : Obd2State) :
    (m.initialized = true → elapsed now s.ignitionStatusTimer = true →
      s.sentFinalIgnitionCheck = false →
      ((loop cfg now bus m s).1.initialized = true ∧
       (loop cfg now bus m s).2.sentFinalIgnitionCheck = true ∧
       (probeGuard cfg m = true →
         (loop cfg now bus m s).2.ignitionStatusTimer = ⟨now⟩) ∧
       (probeGuard cfg m = false →
         (loop cfg now bus m s).2.ignitionStatusTimer = s.ignitionStatusTimer))) ∧
    (m.initialized = true → (loop cfg now bus m s).1.initialized = false →
      (elapsed now s.ignitionStatusTimer = true ∧ s.sentFinalIgnitionCheck = true ∧
       cfg.powerManagement = PowerManagement.OBD2_IGNITION_CHECK)) := by
  constructor
  · intro hinit helap hfinal
    refine ⟨?_, ?_, ?_, ?_⟩
    · simp [loop, hinit, helap, hfinal]
    · simp [loop, hinit, helap, hfinal]
    · intro hg
      simp only [loop, hinit, helap, hfinal, Bool.not_true]
      simp only [if_false, if_true]
      unfold requestIgnitionStatus
      rw [if_pos hg]
      rfl
    · intro hg
      simp only [loop, hinit, helap, hfinal, Bool.not_true]
      simp only [if_false, if_true]
      unfold requestIgnitionStatus
      rw [if_neg (by simp [hg] : ¬ probeGuard cfg m = true)]
      simp
  · intro hinit hout
    by_cases he : elapsed now s.ignitionStatusTimer = true
    · by_cases hf : s.sentFinalIgnitionCheck = true
      · by_cases hpm : cfg.powerManagement = PowerManagement.OBD2_IGNITION_CHECK
        · exact ⟨he, hf, hpm⟩
        · exfalso
          simp [loop, hinit, he, hf, hpm] at hout
      · exfalso
        simp [loop, hinit, he, hf] at hout
    · exfalso
      have he' : elapsed now s.ignitionStatusTimer = false := by
        revert he
        cases elapsed now s.ignitionStatusTimer <;> simp
      by_cases hb1 : s.ignitionWasOn = false ∧
          (s.engineStarted = true ∨ s.vehicleInMotion = true)
      · by_cases hb2 : cfg.recurringObd2Requests = true ∧ s.pidSupportQueried = false
        · simp [loop, hinit, he', hb1, hb2, discoveryPids, addRequest] at hout
        · simp [loop, hinit, he', hb1, hb2] at hout
      · simp [loop, hinit, he', hb1] at hout

/-- Witness for C1 at a concrete input: with the probe guard passing, a
first elapsed tick keeps the manager initialized, latches the final-check
flag and resets the timer to now. -/
theorem loop_two_stage_timeout_witness :
    (loop ⟨PowerManagement.OBD2_IGNITION_CHECK, false⟩ 5 (some 1) ⟨true, some 1, []⟩
        ⟨false, false, ⟨0⟩, false, false, false⟩).1.initialized = true ∧
    (loop ⟨PowerManagement.OBD2_IGNITION_CHECK, false⟩ 5 (some 1) ⟨true, some 1, []⟩
        ⟨false, false, ⟨0⟩, false, false, false⟩).2.sentFinalIgnitionCheck = true ∧
    (loop ⟨PowerManagement.OBD2_IGNITION_CHECK, false⟩ 5 (some 1) ⟨true, some 1, []⟩
        ⟨false, false, ⟨0⟩, false, false, false⟩).2.ignitionStatusTimer = ⟨5⟩ := by
  have h := (loop_two_stage_timeout ⟨PowerManagement.OBD2_IGNITION_CHECK, false⟩ 5
      (some 1) ⟨true, some 1, []⟩ ⟨false, false, ⟨0⟩, false, false, false⟩).1
    rfl (by decide) rfl
  exact ⟨h.1, h.2.1, h.2.2.1 (by decide)⟩

/-- C5 counterexample: when PID discovery triggers it issues five broadcast
requests, not four, and it does so even though no bus is present anywhere
(the manager's OBD-II bus is NULL and the loop's bus argument is NULL) —
only recurring polling being enabled gates the issuance. -/
theorem loop_discovery_counterexample :
    (loop ⟨PowerManagement.OTHER, true⟩ 0 none ⟨true, none, []⟩
        ⟨true, false, ⟨0⟩, false, false, false⟩).1.requests.length = 5 ∧
    (loop ⟨PowerManagement.OTHER, true⟩ 0 none ⟨true, none, []⟩
        ⟨true, false, ⟨0⟩, false, false, false⟩).1.requests.map
        (fun r => r.request.pid) = [0x0, 0x20, 0x40, 0x60, 0x80] ∧
    (⟨true, none, []⟩ : DiagnosticsManager).obd2Bus = none := by decide

/-- C5 (amended): when PID discovery triggers (ignition just detected,
recurring polling enabled, support not yet queried) it issues five broadcast
mode-0x01 one-shot requests with PIDs 0x00, 0x20, 0x40, 0x60, 0x80, each
with the support-response handler as completion callback; the issuance is
gated only on recurring OBD-II polling being enabled (bus presence is
checked in the support-response handler, not at issuance), and with
recurring polling disabled no request is issued. -/
theorem loop_discovery_spec (cfg : Configuration) (now : Nat) (bus : Option Nat)
    (m : DiagnosticsManager) (s : Obd2State)
    (hinit : m.initialized = true)
    (he : elapsed now s.ignitionStatusTimer = false)
    (hwas : s.ignitionWasOn = false)
    (hon : s.engineStarted = true ∨ s.vehicleInMotion = true) :
    (cfg.recurringObd2Requests = true → s.pidSupportQueried = false →
      ((loop cfg now bus m s).1.requests
         = m.requests ++ discoveryPids.map (fun p =>
             { bus := bus,
               request := { arbitration_id := OBD2_FUNCTIONAL_BROADCAST_ID,
                            mode := 0x1, has_pid := true, pid := p },
               name := none, recurring := false, frequencyHz := 0,
               decoder := none,
               callback := some ResponseCallback.checkSupportedPids }) ∧
       (loop cfg now bus m s).2.pidSupportQueried = true)) ∧
    (cfg.recurringObd2Requests = false → (loop cfg now bus m s).1 = m) := by
  constructor
  · intro hrec hq
    constructor
    · simp [loop, hinit, he, hwas, hon, hrec, hq, discoveryPids, addRequest]
    · simp [loop, hinit, he, hwas, hon, hrec, hq]
  · intro hrec
    simp [loop, hinit, he, hwas, hon, hrec]

/-- Witness for C5 at a concrete input: the discovery tick issues the five
probes 0x00, 0x20, 0x40, 0x60, 0x80 and latches `pid_support_queried`. -/
theorem loop_discovery_spec_witness :
    (loop ⟨PowerManagement.OTHER, true⟩ 0 (some 1) ⟨true, some 1, []⟩
        ⟨true, false, ⟨0⟩, false, false, false⟩).1.requests
      = [] ++ discoveryPids.map (fun p =>
          { bus := some 1,
            request := { arbitration_id := OBD2_FUNCTIONAL_BROADCAST_ID,
                         mode := 0x1, has_pid := true, pid := p },
            name := none, recurring := false, frequencyHz := 0,
            decoder := none,
            callback := some ResponseCallback.checkSupportedPids }) ∧
    (loop ⟨PowerManagement.OTHER, true⟩ 0 (some 1) ⟨true, some 1, []⟩
        ⟨true, false, ⟨0⟩, false, false, false⟩).2.pidSupportQueried = true :=
  (loop_discovery_spec ⟨PowerManagement.OTHER, true⟩ 0 (some 1) ⟨true, some 1, []⟩
      ⟨true, false, ⟨0⟩, false, false, false⟩ rfl (by decide) rfl (Or.inl rfl)).1
    rfl rfl

/-- C9: on a tick where the timer has elapsed, the final check has not been
sent, and the probe guard fails (for example no OBD-II bus is configured),
the tick latches `sent_final_ignition_check` without touching the manager or
the timer; consequently at every later instant the timer is still elapsed,
and in ignition-check mode the teardown fires at the very next tick. -/
theorem loop_failed_probe_immediate_final (cfg : Configuration) (now : Nat)
    (bus : Option Nat) (m : DiagnosticsManager) (s : Obd2State)
    (hinit : m.initialized = true)
    (he : elapsed now s.ignitionStatusTimer = true)
    (hf : s.sentFinalIgnitionCheck = false)
    (hg : probeGuard cfg m = false) :
    loop cfg now bus m s = (m, { s with sentFinalIgnitionCheck := true }) ∧
    (∀ now2 : Nat, now ≤ now2 →
      (elapsed now2 s.ignitionStatusTimer = true ∧
       (cfg.powerManagement = PowerManagement.OBD2_IGNITION_CHECK →
         (loop cfg now2 bus m
             { s with sentFinalIgnitionCheck := true }).1.initialized = false))) := by
  constructor
  · simp only [loop, hinit, he, hf, Bool.not_true]
    simp only [if_false, if_true]
    unfold requestIgnitionStatus
    rw [if_neg (by simp [hg] : ¬ probeGuard cfg m = true)]
    simp
  · intro now2 h2
    have he2 : elapsed now2 s.ignitionStatusTimer = true := by
      simp only [elapsed, decide_eq_true_eq] at he ⊢
      omega
    refine ⟨he2, ?_⟩
    intro hpm
    simp [loop, hinit, he2, hpm, reset]

/-- Witness for C9 at a concrete input: no bus, ignition-check mode, timer
elapsed at time 5 — the tick latches the final-check flag without ticking
the timer, and the tick at time 6 tears the manager down. -/
theorem loop_failed_probe_immediate_final_witness :
    loop ⟨PowerManagement.OBD2_IGNITION_CHECK, false⟩ 5 none ⟨true, none, []⟩
        ⟨false, false, ⟨0⟩, false, false, false⟩
      = (⟨true, none, []⟩, ⟨false, false, ⟨0⟩, false, false, true⟩) ∧
    (loop ⟨PowerManagement.OBD2_IGNITION_CHECK, false⟩ 6 none ⟨true, none, []⟩
        ⟨false, false, ⟨0⟩, false, false, true⟩).1.initialized = false := by
  have h := loop_failed_probe_immediate_final
    ⟨PowerManagement.OBD2_IGNITION_CHECK, false⟩ 5 none ⟨true, none, []⟩
    ⟨false, false, ⟨0⟩, false, false, false⟩ rfl (by decide) rfl (by decide)
  exact ⟨h.1, (h.2 6 (by decide)).2 rfl⟩

/-- C10: on a final-timeout tick in a power-management mode other than
ignition-check, the manager is returned untouched — same initialized flag,
same bus, same registered requests — while `ignition_was_on` and
`pid_support_queried` are still cleared on that tick. -/
theorem loop_final_timeout_other_mode (cfg : Configuration) (now : Nat)
    (bus : Option Nat) (m : DiagnosticsManager) (s : Obd2State)
    (hinit : m.initialized = true)
    (he : elapsed now s.ignitionStatusTimer = true)
    (hf : s.sentFinalIgnitionCheck = true)
    (hpm : cfg.powerManagement ≠ PowerManagement.OBD2_IGNITION_CHECK) :
    (loop cfg now bus m s).1 = m ∧
    (loop cfg now bus m s).2.ignitionWasOn = false ∧
    (loop cfg now bus m s).2.pidSupportQueried = false := by
  simp [loop, hinit, he, hf, hpm]

/-- Witness for C10 at a concrete input: in OTHER mode the final-timeout
tick keeps the manager (with its recurring request) intact and clears the
two flags. -/
theorem loop_final_timeout_other_mode_witness :
    (loop ⟨PowerManagement.OTHER, true⟩ 5 none
        ⟨true, some 1,
          [{ bus := some 1,
             request := { arbitration_id := OBD2_FUNCTIONAL_BROADCAST_ID,
                          mode := 0x1, has_pid := true, pid := 0x4 },
             name := some "engine_load", recurring := true, frequencyHz := 5,
             decoder := some ResponseDecoder.handleObd2Pid,
             callback := some ResponseCallback.checkIgnitionStatus }]⟩
        ⟨false, false, ⟨0⟩, true, true, true⟩).1
      = ⟨true, some 1,
          [{ bus := some 1,
             request := { arbitration_id := OBD2_FUNCTIONAL_BROADCAST_ID,
                          mode := 0x1, has_pid := true, pid := 0x4 },
             name := some "engine_load", recurring := true, frequencyHz := 5,
             decoder := some ResponseDecoder.handleObd2Pid,
             callback := some ResponseCallback.checkIgnitionStatus }]⟩ ∧
    (loop ⟨PowerManagement.OTHER, true⟩ 5 none
        ⟨true, some 1,
          [{ bus := some 1,
             request := { arbitration_id := OBD2_FUNCTIONAL_BROADCAST_ID,
                          mode := 0x1, has_pid := true, pid := 0x4 },
             name := some "engine_load", recurring := true, frequencyHz := 5,
             decoder := some ResponseDecoder.handleObd2Pid,
             callback := some ResponseCallback.checkIgnitionStatus }]⟩
        ⟨false, false, ⟨0⟩, true, true, true⟩).2.ignitionWasOn = false ∧
    (loop ⟨PowerManagement.OTHER, true⟩ 5 none
        ⟨true, some 1,
          [{ bus := some 1,
             request := { arbitration_id := OBD2_FUNCTIONAL_BROADCAST_ID,
                          mode := 0x1, has_pid := true, pid := 0x4 },
             name := some "engine_load", recurring := true, frequencyHz := 5,
             decoder := some ResponseDecoder.handleObd2Pid,
             callback := some ResponseCallback.checkIgnitionStatus }]⟩
        ⟨false, false, ⟨0⟩, true, true, true⟩).2.pidSupportQueried = false :=
  loop_final_timeout_other_mode ⟨PowerManagement.OTHER, true⟩ 5 none
    ⟨true, some 1,
      [{ bus := some 1,
         request := { arbitration_id := OBD2_FUNCTIONAL_BROADCAST_ID,
                      mode := 0x1, has_pid := true, pid := 0x4 },
         name := some "engine_load", recurring := true, frequencyHz := 5,
         decoder := some ResponseDecoder.handleObd2Pid,
         callback := some ResponseCallback.checkIgnitionStatus }]⟩
    ⟨false, false, ⟨0⟩, true, true, true⟩ rfl (by decide) rfl (by decide)

/-- C6 counterexample: a zero-valued engine-speed response clears
`engine_started` to false (the flags are not only-set-from-non-zero), and
conversely the teardown tick (which resets the manager and marks it
uninitialized) leaves both flags at true — they are not cleared by the full
reset. -/
theorem ignition_flags_counterexample :
    (checkIgnitionStatus 0 ENGINE_SPEED_PID 0
        ⟨true, false, ⟨0⟩, false, false, false⟩).engineStarted = false ∧
    ((loop ⟨PowerManagement.OBD2_IGNITION_CHECK, false⟩ 5 none ⟨true, some 1, []⟩
        ⟨true, true, ⟨0⟩, true, true, true⟩).1.initialized = false ∧
     (loop ⟨PowerManagement.OBD2_IGNITION_CHECK, false⟩ 5 none ⟨true, some 1, []⟩
        ⟨true, true, ⟨0⟩, true, true, true⟩).2.engineStarted = true ∧
     (loop ⟨PowerManagement.OBD2_IGNITION_CHECK, false⟩ 5 none ⟨true, some 1, []⟩
        ⟨true, true, ⟨0⟩, true, true, true⟩).2.vehicleInMotion = true) := by decide

/-- C6 (amended): `engine_started` and `vehicle_in_motion` are assigned
(decoded value ≠ 0) on every decoded response for their respective PID — so
a zero-valued response clears the assigned flag — any other PID leaves both
unchanged, and the polling state machine's tick (its teardown branch
included) never modifies either flag. -/
theorem ignition_flags_lifecycle (now : Nat) (value : ℚ) (pid : Nat)
    (s : Obd2State) :
    ((checkIgnitionStatus now ENGINE_SPEED_PID value s).engineStarted
       = decide (value ≠ 0)) ∧
    ((checkIgnitionStatus now VEHICLE_SPEED_PID value s).vehicleInMotion
       = decide (value ≠ 0)) ∧
    (pid ≠ ENGINE_SPEED_PID → pid ≠ VEHICLE_SPEED_PID →
      ((checkIgnitionStatus now pid value s).engineStarted = s.engineStarted ∧
       (checkIgnitionStatus now pid value s).vehicleInMotion = s.vehicleInMotion)) ∧
    (∀ (cfg : Configuration) (now2 : Nat) (bus : Option Nat)
        (m : DiagnosticsManager),
      (loop cfg now2 bus m s).2.engineStarted = s.engineStarted ∧
      (loop cfg now2 bus m s).2.vehicleInMotion = s.vehicleInMotion) := by
  refine ⟨?_, ?_, ?_, ?_⟩
  · by_cases hv : value = 0 <;>
      simp [checkIgnitionStatus, ENGINE_SPEED_PID, VEHICLE_SPEED_PID, hv]
  · by_cases hv : value = 0 <;>
      simp [checkIgnitionStatus, ENGINE_SPEED_PID, VEHICLE_SPEED_PID, hv]
  · intro h1 h2
    simp [checkIgnitionStatus, h1, h2]
  · intro cfg now2 bus m
    by_cases hinit : m.initialized = true
    · by_cases he : elapsed now2 s.ignitionStatusTimer = true
      · by_cases hf : s.sentFinalIgnitionCheck = true
        · simp [loop, hinit, he, hf]
        · simp [loop, hinit, he, hf]
      · have he' : elapsed now2 s.ignitionStatusTimer = false := by
          revert he
          cases elapsed now2 s.ignitionStatusTimer <;> simp
        by_cases hb1 : s.ignitionWasOn = false ∧
            (s.engineStarted = true ∨ s.vehicleInMotion = true)
        · by_cases hb2 : cfg.recurringObd2Requests = true ∧ s.pidSupportQueried = false
          · simp [loop, hinit, he', hb1, hb2]
          · simp [loop, hinit, he', hb1, hb2]
        · simp [loop, hinit, he', hb1]
    · have hinit' : m.initialized = false := by
        revert hinit
        cases m.initialized <;> simp
      simp [loop, hinit']

/-- Witness for C6 at concrete inputs: an unrelated PID (0x99) leaves both
flags true, and the teardown tick leaves `engine_started` true. -/
theorem ignition_flags_lifecycle_witness :
    (checkIgnitionStatus 3 0x99 2
        ⟨true, true, ⟨0⟩, false, false, false⟩).engineStarted = true ∧
    (checkIgnitionStatus 3 0x99 2
        ⟨true, true, ⟨0⟩, false, false, false⟩).vehicleInMotion = true ∧
    (loop ⟨PowerManagement.OBD2_IGNITION_CHECK, false⟩ 9 none ⟨true, some 1, []⟩
        ⟨true, true, ⟨0⟩, false, false, true⟩).2.engineStarted = true := by
  have h := ignition_flags_lifecycle 3 2 0x99
    ⟨true, true, ⟨0⟩, false, false, false⟩
  have h2 := ignition_flags_lifecycle 9 2 0x99
    ⟨true, true, ⟨0⟩, false, false, true⟩
  refine ⟨?_, ?_, ?_⟩
  · exact ((h.2.2.1 (by decide) (by decide)).1).trans rfl
  · exact ((h.2.2.1 (by decide) (by decide)).2).trans rfl
  · exact ((h2.2.2.2 ⟨PowerManagement.OBD2_IGNITION_CHECK, false⟩ 9 none
      ⟨true, some 1, []⟩).1).trans rfl

/-- C7 counterexample: on a teardown tick (timer elapsed, final check sent,
ignition-check mode — the manager is indeed marked uninitialized),
`ignition_was_on` and `pid_support_queried` are cleared but
`sent_final_ignition_check` remains true, so not all three polling flags are
reset. -/
theorem polling_flags_teardown_counterexample :
    (loop ⟨PowerManagement.OBD2_IGNITION_CHECK, false⟩ 5 none ⟨true, some 1, []⟩
        ⟨false, false, ⟨0⟩, true, true, true⟩).1.initialized = false ∧
    (loop ⟨PowerManagement.OBD2_IGNITION_CHECK, false⟩ 5 none ⟨true, some 1, []⟩
        ⟨false, false, ⟨0⟩, true, true, true⟩).2.ignitionWasOn = false ∧
    (loop ⟨PowerManagement.OBD2_IGNITION_CHECK, false⟩ 5 none ⟨true, some 1, []⟩
        ⟨false, false, ⟨0⟩, true, true, true⟩).2.pidSupportQueried = false ∧
    (loop ⟨PowerManagement.OBD2_IGNITION_CHECK, false⟩ 5 none ⟨true, some 1, []⟩
        ⟨false, false, ⟨0⟩, true, true, true⟩).2.sentFinalIgnitionCheck = true := by
  decide

/-- C7 (amended): every final-timeout tick resets `ignition_was_on` and
`pid_support_queried` to false, while `sent_final_ignition_check` is left
true by that branch (it is cleared only when ignition is next observed
on). -/
theorem loop_teardown_flags (cfg : Configuration) (now : Nat) (bus : Option Nat)
    (m : DiagnosticsManager) (s : Obd2State)
    (hinit : m.initialized = true)
    (he : elapsed now s.ignitionStatusTimer = true)
    (hf : s.sentFinalIgnitionCheck = true) :
    (loop cfg now bus m s).2.ignitionWasOn = false ∧
    (loop cfg now bus m s).2.pidSupportQueried = false ∧
    (loop cfg now bus m s).2.sentFinalIgnitionCheck = true := by
  simp [loop, hinit, he, hf]

/-- Witness for C7 at a concrete input (OTHER mode, so the flag behaviour is
the same even without the manager reset). -/
theorem loop_teardown_flags_witness :
    (loop ⟨PowerManagement.OTHER, true⟩ 7 none ⟨true, none, []⟩
        ⟨false, false, ⟨1⟩, true, true, true⟩).2.ignitionWasOn = false ∧
    (loop ⟨PowerManagement.OTHER, true⟩ 7 none ⟨true, none, []⟩
        ⟨false, false, ⟨1⟩, true, true, true⟩).2.pidSupportQueried = false ∧
    (loop ⟨PowerManagement.OTHER, true⟩ 7 none ⟨true, none, []⟩
        ⟨false, false, ⟨1⟩, true, true, true⟩).2.sentFinalIgnitionCheck = true :=
  loop_teardown_flags ⟨PowerManagement.OTHER, true⟩ 7 none ⟨true, none, []⟩
    ⟨false, false, ⟨1⟩, true, true, true⟩ rfl (by decide) rfl

/-- C8 counterexample: with a non-null message and an encoder that fails
after writing 5 bytes to the stream, `serialize` returns 5, not 0 — a
non-zero returned length does not imply the encoding succeeded. -/
theorem serialize_failed_encode_counterexample :
    serialize (some ⟨0⟩) (fun _ => (false, 5)) = 5 ∧
    ((fun (_ : VehicleMessage) => ((false : Bool), (5 : Nat))) ⟨0⟩).1 = false ∧
    (5 : Nat) ≠ 0 :=
  ⟨rfl, rfl, by decide⟩

/-- C8 (amended): `serialize` returns 0 when the message is null; for a
non-null message it returns the stream's bytes-written count regardless of
whether the encode succeeded (it only logs on failure); hence a non-zero
returned length implies the message was non-null, but not that encoding
succeeded. -/
theorem serialize_spec (message : Option VehicleMessage)
    (encode : VehicleMessage → Bool × Nat) :
    (message = none → serialize message encode = 0) ∧
    (∀ msg, message = some msg → serialize message encode = (encode msg).2) ∧
    (serialize message encode ≠ 0 → message ≠ none) := by
  refine ⟨?_, ?_, ?_⟩
  · intro h
    subst h
    rfl
  · intro msg h
    subst h
    rfl
  · intro h hn
    subst hn
    exact h rfl

/-- Witness for C8 at concrete inputs: the null message serializes to
length 0; a successfully encoded message returns its bytes-written count,
which is non-zero, and the message was indeed non-null. -/
theorem serialize_spec_witness :
    serialize none (fun _ => (true, 9)) = 0 ∧
    serialize (some ⟨1⟩) (fun _ => (true, 9)) = 9 ∧
    (some ⟨1⟩ : Option VehicleMessage) ≠ none := by
  have h0 := (serialize_spec none (fun _ => (true, 9))).1 rfl
  have h1 := (serialize_spec (some ⟨1⟩) (fun _ => (true, 9))).2.1 ⟨1⟩ rfl
  have h2 := (serialize_spec (some ⟨1⟩) (fun _ => (true, 9))).2.2 (by decide)
  exact ⟨h0, h1, h2⟩

end ViFw
